import Mathlib

/-!
Shallow embedding of the GOES data-fetch scripts
`nasa_spaceApp/geos.py` and `public/geos_old.py`.

Strings are Lean `String`s; Python `os.path.join` (posix, two arguments),
`str.split('/')[-1]`, `str.replace('-','')` and `strftime` formatting are
modelled character-faithfully below.  The filesystem is a list of
(name, contents) pairs; `urllib.request.urlretrieve` is an oracle that
either raises or completes, in each case yielding the filesystem it leaves
behind.  Dataframes carry their column names and time-indexed rows.
-/

namespace Geos

/-- Result of `sunpy.time.parse_time` on a date string: a calendar date. -/
structure PDate where
  year : Nat
  month : Nat
  day : Nat
deriving DecidableEq

/-- Zero-pad the decimal representation of `n` to width `w`, as Python
`strftime` does for `%Y` (width 4) and `%m`, `%d` (width 2). -/
def padZeros (w : Nat) (n : Nat) : String :=
  let s := toString n
  String.mk (List.replicate (w - s.length) '0') ++ s

/-- Model of `date.strftime('%Y')`. -/
def strfY (d : PDate) : String := padZeros 4 d.year

/-- Model of `date.strftime('%m')`. -/
def strfm (d : PDate) : String := padZeros 2 d.month

/-- Model of `date.strftime('%Y%m%d')`. -/
def strfYmd (d : PDate) : String := strfY d ++ strfm d ++ padZeros 2 d.day

/-- Python `s.startswith(p)`. -/
def strStartsWith (s p : String) : Bool := p.data.isPrefixOf s.data

/-- Python `s.endswith(p)`. -/
def strEndsWith (s p : String) : Bool := p.data.isSuffixOf s.data

/-- Python `os.path.join(a, b)` (posixpath, two arguments). -/
def pathJoin (a b : String) : String :=
  if strStartsWith b "/" then b
  else if a == "" || strEndsWith a "/" then a ++ b
  else a ++ "/" ++ b

/-- Python `str.split(sep)` for a one-character separator, on char lists. -/
def splitOnChar (sep : Char) : List Char → List (List Char)
  | [] => [[]]
  | c :: rest =>
    let r := splitOnChar sep rest
    if c == sep then [] :: r
    else (c :: r.headD []) :: r.tail

/-- Python `url.split('/')[-1]`: the last '/'-separated segment. -/
def lastSegment (s : String) : String :=
  String.mk ((splitOnChar '/' s.data).getLastD [])

/-- Constant `APP_NAME` of geos.py. -/
def APP_NAME : String := "nasa_spaceApp"

/-- Constant `DATA_PATH` of geos.py. -/
def DATA_PATH : String := APP_NAME ++ "/data"

/-- Constant `NGDC_URL` of geos.py. -/
def NGDC_URL : String :=
  "https://data.ngdc.noaa.gov/platforms/solar-space-observing-satellites/goes/"

/-- Constant `SWPC_URL` of geos.py. -/
def SWPC_URL : String := "https://services.swpc.noaa.gov/json/goes/primary"

/-- Fragment table `XRS_X1S` of geos.py. -/
def XRS_X1S : List String := ["xrsf-l2-flx1s_science", "sci_xrsf-l2-flx1s_g", "_v2-1-0"]

/-- Fragment table `XRS_SUM` of geos.py. -/
def XRS_SUM : List String := ["xrsf-l2-flsum_science", "sci_xrsf-l2-flsum_g", "_v2-1-0"]

/-- Fragment table `XRS_LOC` of geos.py. -/
def XRS_LOC : List String := ["xrsf-l2-flloc_science", "sci_xrsf-l2-flloc_g", "_v2-1-0"]

/-- Fragment table `XRS_DET` of geos.py. -/
def XRS_DET : List String := ["xrsf-l2-fldet_science", "sci_xrsf-l2-fldet_g", "_v2-1-0"]

/-- Fragment table `XRS_KD1` of geos.py. -/
def XRS_KD1 : List String := ["xrsf-l2-bkd1d_science", "sci_xrsf-l2-bkd1d_g", "_v2-1-0"]

/-- Fragment table `EPHE` of geos.py. -/
def EPHE : List String := ["ephe-l2-orb1m", "dn_ephe-l2-orb1m_g", "_v0-0-3"]

/-- Fragment table `EUV_AVG1D` of geos.py. -/
def EUV_AVG1D : List String := ["euvs-l2-avg1d_science", "sci_euvs-l2-avg1d_g", "_v1-0-1"]

/-- Fragment table `EUV_AVG1M` of geos.py. -/
def EUV_AVG1M : List String := ["euvs-l2-avg1m_science", "sci_euvs-l2-avg1m_g", "_v1-0-1"]

/-- Fragment table `MAG_HI` of geos.py. -/
def MAG_HI : List String := ["magn-l2-hires", "dn_magn-l2-hires_g", "_v1-0-1"]

/-- Function `construct_path` of geos.py: select the three URL fragments
(path_one, path_two, version) for an instrumentation type string. -/
def construct_path (type : String) : String × String × String :=
  if type = "xrs-x1s" then (XRS_X1S[0]!, XRS_X1S[1]!, XRS_X1S[2]!)
  else if type = "xrs-sum" then (XRS_SUM[0]!, XRS_SUM[1]!, XRS_SUM[2]!)
  else if type = "xrs-loc" then (XRS_LOC[0]!, XRS_LOC[1]!, XRS_LOC[2]!)
  else if type = "xrs-det" then (XRS_DET[0]!, XRS_DET[1]!, XRS_DET[2]!)
  else if type = "xrs-kd1" then (XRS_KD1[0]!, XRS_KD1[1]!, XRS_KD1[2]!)
  else if type = "ephe" then (EPHE[0]!, EPHE[1]!, EPHE[2]!)
  else if type = "euv-avg1d" then (EUV_AVG1D[0]!, EUV_AVG1D[1]!, EUV_AVG1D[2]!)
  else if type = "euv-avg1m" then (EUV_AVG1M[0]!, EUV_AVG1M[1]!, EUV_AVG1M[2]!)
  else if type = "mag-hi" then (MAG_HI[0]!, MAG_HI[1]!, MAG_HI[2]!)
  else (XRS_X1S[0]!, XRS_X1S[1]!, XRS_X1S[2]!)

/-- The type strings recognized by the if/elif chain of `construct_path`. -/
def recognizedTypes : List String :=
  ["xrs-x1s", "xrs-sum", "xrs-loc", "xrs-det", "xrs-kd1", "ephe",
   "euv-avg1d", "euv-avg1m", "mag-hi"]

/-- The `url` computed inside `get_goes` of geos.py:
`os.path.join(NGDC_URL, "goes{sat}/l2/data/{path_one}/{Y}/{m}/{path_two}{sat}_d{Ymd}{version}.nc")`. -/
def get_goes_url (sat : Nat) (type : String) (d : PDate) : String :=
  pathJoin NGDC_URL
    ("goes" ++ toString sat ++ "/l2/data/" ++ (construct_path type).1 ++ "/"
      ++ strfY d ++ "/" ++ strfm d ++ "/" ++ (construct_path type).2.1
      ++ toString sat ++ "_d" ++ strfYmd d ++ (construct_path type).2.2 ++ ".nc")

/-- The `filename` computed inside `get_goes`: the last '/'-segment of the
url, joined with `path` when one is given. -/
def get_goes_filename (url : String) (path : Option String) : String :=
  match path with
  | some p => pathJoin p (lastSegment url)
  | none => lastSegment url

/-- The local filesystem: a list of (filename, contents) pairs. -/
abbrev FS := List (String × String)

/-- Python `os.path.exists(f)` over the modelled filesystem. -/
def fsExists (fs : FS) (f : String) : Bool := fs.any (fun e => e.1 == f)

/-- Outcome of the one `urllib.request.urlretrieve(url, filename)` call:
it either raises an exception or completes, in each case leaving some
filesystem behind. -/
inductive RetrieveOutcome where
  | raises (fsAfter : FS)
  | completes (fsAfter : FS)

/-- Observable behaviour of one `get_goes` call: its return value, the
(url, filename) arguments of each `urlretrieve` call it issued, the
filesystem it leaves behind, and the lines it printed. -/
structure GetGoesTrace where
  result : Option String
  retrieves : List (String × String)
  finalFS : FS
  prints : List String

/-- Function `get_goes` of geos.py, run on an explicit filesystem `fs` with
`oracle` giving the behaviour of the sole `urlretrieve` call: print the url;
if the local filename exists return it at once; otherwise retrieve under a
bare try/except (on exception print "Download failed" and return None; on
completion return the filename if it now exists, else fall through to an
implicit None). -/
def get_goes (d : PDate) (sat : Nat) (type : String) (path : Option String)
    (fs : FS) (oracle : RetrieveOutcome) : GetGoesTrace :=
  let url := get_goes_url sat type d
  let filename := get_goes_filename url path
  if fsExists fs filename then
    { result := some filename, retrieves := [], finalFS := fs, prints := [url] }
  else
    match oracle with
    | .raises fsAfter =>
      { result := none, retrieves := [(url, filename)], finalFS := fsAfter,
        prints := [url, "Download failed"] }
    | .completes fsAfter =>
      if fsExists fsAfter filename then
        { result := some filename, retrieves := [(url, filename)], finalFS := fsAfter,
          prints := [url] }
      else
        { result := none, retrieves := [(url, filename)], finalFS := fsAfter,
          prints := [url] }

/-- The fields of the xarray dataset that `make_goes_timeseries` reads:
the `xrsa_flux` and `xrsb_flux` data arrays and the `time` coordinate. -/
structure Dataset where
  xrsa_flux : List Int
  xrsb_flux : List Int
  time : List Nat

/-- A pandas dataframe as used here: column names plus time-indexed rows,
each row holding the index value and the xrsa and xrsb entries. -/
structure DataFrame where
  colNames : List String
  rows : List (Nat × Int × Int)
deriving DecidableEq

/-- Python `pd.DataFrame({'xrsa': a, 'xrsb': b}, index=tt)`. -/
def mkFrame (a b : List Int) (tt : List Nat) : DataFrame :=
  { colNames := ["xrsa", "xrsb"], rows := tt.zip (a.zip b) }

/-- Python `data.sort_index(inplace=True)`: reorder the rows into
nondecreasing index order. -/
def sort_index (df : DataFrame) : DataFrame :=
  { colNames := df.colNames,
    rows := List.insertionSort (fun r s => r.1 ≤ s.1) df.rows }

/-- Function `make_goes_timeseries` of geos.py: build the two-column frame
from the dataset's flux arrays indexed by its times and sort it by index
(the final `ts.TimeSeries` wraps this frame unchanged). -/
def make_goes_timeseries (data : Dataset) : DataFrame :=
  sort_index (mkFrame data.xrsa_flux data.xrsb_flux data.time)

/-- Constant `BASE_URL` of geos_old.py. -/
def BASE_URL : String :=
  "https://data.ngdc.noaa.gov/platforms/solar-space-observing-satellites/goes/"

/-- Constant `API_VERSION` of geos_old.py. -/
def API_VERSION : String := "_v2-1-0"

/-- The `url` computed inside `get_goes` of geos_old.py, whose format string
hard-codes the xrs fragments. -/
def get_goes_url_old (sat : Nat) (d : PDate) : String :=
  pathJoin BASE_URL
    ("goes" ++ toString sat ++ "/l2/data/xrsf-l2-flx1s_science/" ++ strfY d ++ "/"
      ++ strfm d ++ "/sci_xrsf-l2-flx1s_g" ++ toString sat ++ "_d" ++ strfYmd d
      ++ API_VERSION ++ ".nc")

/-- Function `make_goes_timeseries` of geos_old.py (textually identical to
the one in geos.py). -/
def make_goes_timeseries_old (data : Dataset) : DataFrame :=
  sort_index (mkFrame data.xrsa_flux data.xrsb_flux data.time)

/-- One record of the NOAA SWPC xrays JSON feed, with the fields
`read_recent_noaa` uses. -/
structure NoaaRecord where
  time_tag : Nat
  flux : Int
  energy : String

/-- The `dict_interval` dictionary of `read_recent_noaa`. -/
def dict_interval : List (String × String) :=
  [("7-day", "xrays-7-day.json"), ("3-day", "xrays-3-day.json"),
   ("1-day", "xrays-1-day.json"), ("6-hour", "xrays-6-hour.json")]

/-- Function `read_recent_noaa` of geos.py on the records fetched from the
feed: warn (first component true) when the interval is not a dictionary key,
then index the dictionary — a missing key raises KeyError (second component
`none`); otherwise split the records by energy band, build the two-column
frame indexed by the short-band time tags, and sort it by index. -/
def read_recent_noaa (interval : String) (records : List NoaaRecord) :
    Bool × Option DataFrame :=
  let warned := !(dict_interval.any (fun p => p.1 == interval))
  match dict_interval.lookup interval with
  | none => (warned, none)
  | some _ =>
    let short := records.filter (fun r => r.energy == "0.05-0.4nm")
    let long := records.filter (fun r => r.energy == "0.1-0.8nm")
    (warned, some (sort_index (mkFrame (short.map (fun r => r.flux))
      (long.map (fun r => r.flux)) (short.map (fun r => r.time_tag)))))

/-- The `satList` of `get_goes_by_date`. -/
def satList : List Nat := [16, 17, 18]

/-- The `typeList` of `get_goes_by_date`. -/
def typeList : List String := ["xrs-x1s"]

/-- The `dateList` of `get_goes_by_date`. -/
def dateList : List String :=
  ["2022-10-02", "2022-10-01", "2022-09-30", "2022-09-29", "2022-09-28",
   "2022-09-27", "2022-09-26", "2022-09-25", "2022-09-24", "2022-09-23",
   "2022-09-22", "2022-09-21", "2022-09-20"]

/-- One (type, sat, date) combination of the nested loops. -/
abbrev Combo := String × Nat × String

/-- The combinations the nested `for` loops of `get_goes_by_date` visit,
in order. -/
def allCombos : List Combo :=
  typeList.flatMap (fun t => satList.flatMap (fun s => dateList.map (fun dt => (t, s, dt))))

/-- Python `date.replace('-', '')`: drop every dash. -/
def removeDashes (s : String) : String :=
  String.mk (s.data.filter (fun c => !(c == '-')))

/-- The `output_file` computed for one loop iteration of `get_goes_by_date`. -/
def output_file (sat : Nat) (type dt : String) : String :=
  DATA_PATH ++ "/goes-" ++ toString sat ++ "-" ++ type ++ "-" ++ removeDashes dt ++ ".json"

/-- The loop body of `get_goes_by_date` under its bare try/except: `body c`
tells whether processing combination `c` runs to completion (writing its
output file) or raises (in which case `except: continue` swallows the
exception).  Returns the combinations processed and the files written. -/
def runCombos (body : Combo → Bool) : List Combo → List Combo × List String
  | [] => ([], [])
  | c :: rest =>
    let r := runCombos body rest
    if body c then (c :: r.1, output_file c.2.1 c.1 c.2.2 :: r.2)
    else (c :: r.1, r.2)

/-- Function `get_goes_by_date` of geos.py: run the loop body over every
(type, sat, date) combination. -/
def get_goes_by_date (body : Combo → Bool) : List Combo × List String :=
  runCombos body allCombos

end Geos

namespace Geos

theorem startsWith_goes (s : String) : strStartsWith ("goes" ++ s) "/" = false := by
  show List.isPrefixOf "/".data ("goes" ++ s).data = false
  rw [String.data_append]
  rfl

theorem pathJoin_of_slash (a b : String) (h1 : strStartsWith b "/" = false)
    (h2 : strEndsWith a "/" = true) : pathJoin a b = a ++ b := by
  simp [pathJoin, h1, h2]

theorem pathJoin_goes (a s : String) (h2 : strEndsWith a "/" = true) :
    pathJoin a ("goes" ++ s) = a ++ ("goes" ++ s) :=
  pathJoin_of_slash _ _ (startsWith_goes s) h2

/-- C1: for every date, satellite number and instrument-type string, the URL
built by `get_goes` is `NGDC_URL` joined with
`goes{sat}/l2/data/{fragment1}/{YYYY}/{MM}/{fragment2}{sat}_d{YYYYMMDD}{fragment3}.nc`,
where the three fragments are the `construct_path` table row for the type
string and the date fields come from the parsed date. -/
theorem get_goes_url_spec (sat : Nat) (type : String) (d : PDate) :
    get_goes_url sat type d =
      NGDC_URL ++ "goes" ++ toString sat ++ "/l2/data/" ++ (construct_path type).1
        ++ "/" ++ strfY d ++ "/" ++ strfm d ++ "/" ++ (construct_path type).2.1
        ++ toString sat ++ "_d" ++ strfYmd d ++ (construct_path type).2.2 ++ ".nc" := by
  rw [get_goes_url]
  simp only [String.append_assoc]
  rw [pathJoin_goes _ _ (by rfl)]

/-- C2: when a file already exists at the computed local filename, `get_goes`
returns that filename, issues no `urlretrieve` call, leaves the filesystem
(and hence the existing file's contents) unchanged, and prints only the url. -/
theorem get_goes_cached (d : PDate) (sat : Nat) (type : String) (path : Option String)
    (fs : FS) (oracle : RetrieveOutcome)
    (h : fsExists fs (get_goes_filename (get_goes_url sat type d) path) = true) :
    get_goes d sat type path fs oracle =
      { result := some (get_goes_filename (get_goes_url sat type d) path),
        retrieves := [], finalFS := fs, prints := [get_goes_url sat type d] } := by
  simp [get_goes, h]

theorem get_goes_cached_witness :
    fsExists [("sci_xrsf-l2-flx1s_g16_d20170910_v2-1-0.nc", "cached")]
        (get_goes_filename (get_goes_url 16 "xrs" ⟨2017, 9, 10⟩) none) = true ∧
    get_goes ⟨2017, 9, 10⟩ 16 "xrs" none
        [("sci_xrsf-l2-flx1s_g16_d20170910_v2-1-0.nc", "cached")] (.raises []) =
      { result := some (get_goes_filename (get_goes_url 16 "xrs" ⟨2017, 9, 10⟩) none),
        retrieves := [],
        finalFS := [("sci_xrsf-l2-flx1s_g16_d20170910_v2-1-0.nc", "cached")],
        prints := [get_goes_url 16 "xrs" ⟨2017, 9, 10⟩] } :=
  ⟨by decide, get_goes_cached ⟨2017, 9, 10⟩ 16 "xrs" none _ _ (by decide)⟩

/-- C3: when the local file does not already exist and `urlretrieve` raises,
`get_goes` prints "Download failed", returns None, issues exactly that one
retrieve call, and neither re-raises nor retries. -/
theorem get_goes_download_failed (d : PDate) (sat : Nat) (type : String)
    (path : Option String) (fs : FS) (fsAfter : FS)
    (h : fsExists fs (get_goes_filename (get_goes_url sat type d) path) = false) :
    get_goes d sat type path fs (.raises fsAfter) =
      { result := none,
        retrieves := [(get_goes_url sat type d,
          get_goes_filename (get_goes_url sat type d) path)],
        finalFS := fsAfter,
        prints := [get_goes_url sat type d, "Download failed"] } := by
  simp [get_goes, h]

theorem get_goes_download_failed_witness :
    fsExists [] (get_goes_filename (get_goes_url 17 "xrs-sum" ⟨2022, 10, 2⟩)
        (some DATA_PATH)) = false ∧
    get_goes ⟨2022, 10, 2⟩ 17 "xrs-sum" (some DATA_PATH) [] (.raises []) =
      { result := none,
        retrieves := [(get_goes_url 17 "xrs-sum" ⟨2022, 10, 2⟩,
          get_goes_filename (get_goes_url 17 "xrs-sum" ⟨2022, 10, 2⟩) (some DATA_PATH))],
        finalFS := [],
        prints := [get_goes_url 17 "xrs-sum" ⟨2022, 10, 2⟩, "Download failed"] } :=
  ⟨rfl, get_goes_download_failed ⟨2022, 10, 2⟩ 17 "xrs-sum" (some DATA_PATH) [] [] rfl⟩

/-- C4: every `get_goes` call issues at most one `urlretrieve` call, and
exactly zero when the local file already exists. -/
theorem get_goes_single_request (d : PDate) (sat : Nat) (type : String)
    (path : Option String) (fs : FS) (oracle : RetrieveOutcome) :
    (get_goes d sat type path fs oracle).retrieves.length ≤ 1 ∧
    (fsExists fs (get_goes_filename (get_goes_url sat type d) path) = true →
      (get_goes d sat type path fs oracle).retrieves = []) := by
  refine ⟨?_, fun h => by simp [get_goes, h]⟩
  cases hx : fsExists fs (get_goes_filename (get_goes_url sat type d) path)
  · cases oracle with
    | raises fsAfter => simp [get_goes, hx]
    | completes fsAfter =>
      cases hy : fsExists fsAfter (get_goes_filename (get_goes_url sat type d) path) <;>
        simp [get_goes, hx, hy]
  · simp [get_goes, hx]

theorem get_goes_single_request_witness :
    (get_goes ⟨2020, 1, 5⟩ 18 "xrs-loc" none
        [("sci_xrsf-l2-flloc_g18_d20200105_v2-1-0.nc", "x")]
        (.completes [])).retrieves.length ≤ 1 ∧
    fsExists [("sci_xrsf-l2-flloc_g18_d20200105_v2-1-0.nc", "x")]
        (get_goes_filename (get_goes_url 18 "xrs-loc" ⟨2020, 1, 5⟩) none) = true ∧
    (get_goes ⟨2020, 1, 5⟩ 18 "xrs-loc" none
        [("sci_xrsf-l2-flloc_g18_d20200105_v2-1-0.nc", "x")]
        (.completes [])).retrieves = [] :=
  ⟨(get_goes_single_request ⟨2020, 1, 5⟩ 18 "xrs-loc" none _ (.completes [])).1,
   by decide,
   (get_goes_single_request ⟨2020, 1, 5⟩ 18 "xrs-loc" none _ (.completes [])).2 (by decide)⟩

/-- C9: `get_goes` returns a non-null value only when that value is the
computed filename and the file-existence check on the final filesystem
passed; if the retrieve completes without raising but the downloaded file
still does not exist, it returns None and prints only the url (no failure
message). -/
theorem get_goes_result_checked (d : PDate) (sat : Nat) (type : String)
    (path : Option String) (fs : FS) (oracle : RetrieveOutcome) :
    (∀ f, (get_goes d sat type path fs oracle).result = some f →
      f = get_goes_filename (get_goes_url sat type d) path ∧
      fsExists (get_goes d sat type path fs oracle).finalFS f = true) ∧
    (∀ fsAfter, oracle = RetrieveOutcome.completes fsAfter →
      fsExists fs (get_goes_filename (get_goes_url sat type d) path) = false →
      fsExists fsAfter (get_goes_filename (get_goes_url sat type d) path) = false →
      (get_goes d sat type path fs oracle).result = none ∧
      (get_goes d sat type path fs oracle).prints = [get_goes_url sat type d]) := by
  constructor
  · intro f hf
    cases hx : fsExists fs (get_goes_filename (get_goes_url sat type d) path)
    · cases oracle with
      | raises fsAfter => simp [get_goes, hx] at hf
      | completes fsAfter =>
        cases hy : fsExists fsAfter (get_goes_filename (get_goes_url sat type d) path)
        · simp [get_goes, hx, hy] at hf
        · simp [get_goes, hx, hy] at hf
          subst hf
          simp [get_goes, hx, hy]
    · simp [get_goes, hx] at hf
      subst hf
      simp [get_goes, hx]
  · intro fsAfter ho h1 h2
    subst ho
    simp [get_goes, h1, h2]

theorem get_goes_result_checked_witness :
    fsExists [] (get_goes_filename (get_goes_url 16 "ephe" ⟨2021, 3, 7⟩) none) = false ∧
    (get_goes ⟨2021, 3, 7⟩ 16 "ephe" none [] (.completes [])).result = none ∧
    (get_goes ⟨2021, 3, 7⟩ 16 "ephe" none [] (.completes [])).prints =
      [get_goes_url 16 "ephe" ⟨2021, 3, 7⟩] :=
  ⟨rfl,
   (get_goes_result_checked ⟨2021, 3, 7⟩ 16 "ephe" none [] (.completes [])).2 [] rfl rfl rfl⟩

/-- C8: `construct_path` is total: any type string outside the nine
recognized values falls to the else branch and yields the `XRS_X1S`
fragments, so an unrecognized type (such as the default "xrs") produces the
same URL as "xrs-x1s". -/
theorem construct_path_unrecognized (t : String) (sat : Nat) (d : PDate)
    (h : t ∉ recognizedTypes) :
    construct_path t = construct_path "xrs-x1s" ∧
    get_goes_url sat t d = get_goes_url sat "xrs-x1s" d := by
  have hcp : construct_path t = construct_path "xrs-x1s" := by
    simp only [recognizedTypes, List.mem_cons, List.not_mem_nil, or_false, not_or] at h
    obtain ⟨h1, h2, h3, h4, h5, h6, h7, h8, h9⟩ := h
    simp [construct_path, h1, h2, h3, h4, h5, h6, h7, h8, h9]
  exact ⟨hcp, by unfold get_goes_url; rw [hcp]⟩

theorem construct_path_unrecognized_witness :
    ("xrs" ∉ recognizedTypes) ∧
    (construct_path "xrs" = construct_path "xrs-x1s" ∧
      get_goes_url 16 "xrs" ⟨2017, 9, 10⟩ = get_goes_url 16 "xrs-x1s" ⟨2017, 9, 10⟩) :=
  ⟨by decide, construct_path_unrecognized "xrs" 16 ⟨2017, 9, 10⟩ (by decide)⟩

instance rowLE_total : IsTotal (Nat × Int × Int) (fun a b => a.1 ≤ b.1) :=
  ⟨fun a b => Nat.le_total a.1 b.1⟩

instance rowLE_trans : IsTrans (Nat × Int × Int) (fun a b => a.1 ≤ b.1) :=
  ⟨fun _ _ _ => Nat.le_trans⟩

theorem sort_index_sorted (df : DataFrame) :
    (sort_index df).rows.Pairwise (fun a b => a.1 ≤ b.1) :=
  List.sorted_insertionSort (fun a b : Nat × Int × Int => a.1 ≤ b.1) df.rows

theorem sort_index_perm (df : DataFrame) : (sort_index df).rows.Perm df.rows :=
  List.perm_insertionSort (fun a b : Nat × Int × Int => a.1 ≤ b.1) df.rows

/-- C5: the frame built by `make_goes_timeseries` has exactly the two
columns `xrsa` and `xrsb`, its rows are the time-indexed data, and they are
sorted in nondecreasing time order; likewise for the frame
`read_recent_noaa` produces when it returns one. -/
theorem timeseries_two_columns_sorted (ds : Dataset) (interval : String)
    (recs : List NoaaRecord) :
    (make_goes_timeseries ds).colNames = ["xrsa", "xrsb"] ∧
    (make_goes_timeseries ds).rows.Pairwise (fun a b => a.1 ≤ b.1) ∧
    (make_goes_timeseries ds).rows.Perm
      (ds.time.zip (ds.xrsa_flux.zip ds.xrsb_flux)) ∧
    (∀ df, (read_recent_noaa interval recs).2 = some df →
      df.colNames = ["xrsa", "xrsb"] ∧
      df.rows.Pairwise (fun a b => a.1 ≤ b.1) ∧
      df.rows.Perm
        (((recs.filter (fun r => r.energy == "0.05-0.4nm")).map (fun r => r.time_tag)).zip
          (((recs.filter (fun r => r.energy == "0.05-0.4nm")).map (fun r => r.flux)).zip
            ((recs.filter (fun r => r.energy == "0.1-0.8nm")).map (fun r => r.flux))))) := by
  refine ⟨rfl, sort_index_sorted _, sort_index_perm _, ?_⟩
  intro df hdf
  simp only [read_recent_noaa] at hdf
  cases hl : dict_interval.lookup interval with
  | none => rw [hl] at hdf; simp at hdf
  | some f =>
    rw [hl] at hdf
    simp only [Option.some.injEq] at hdf
    subst hdf
    exact ⟨rfl, sort_index_sorted _, sort_index_perm _⟩

theorem timeseries_two_columns_sorted_witness :
    (make_goes_timeseries ⟨[1, 2], [3, 4], [10, 7]⟩).colNames = ["xrsa", "xrsb"] ∧
    ((read_recent_noaa "7-day" [⟨5, 2, "0.05-0.4nm"⟩, ⟨3, 7, "0.1-0.8nm"⟩]).2 =
      some ⟨["xrsa", "xrsb"], [(5, 2, 7)]⟩) ∧
    (⟨["xrsa", "xrsb"], [(5, 2, 7)]⟩ : DataFrame).colNames = ["xrsa", "xrsb"] :=
  ⟨(timeseries_two_columns_sorted ⟨[1, 2], [3, 4], [10, 7]⟩ "7-day"
      [⟨5, 2, "0.05-0.4nm"⟩, ⟨3, 7, "0.1-0.8nm"⟩]).1,
   by decide,
   ((timeseries_two_columns_sorted ⟨[1, 2], [3, 4], [10, 7]⟩ "7-day"
      [⟨5, 2, "0.05-0.4nm"⟩, ⟨3, 7, "0.1-0.8nm"⟩]).2.2.2
      ⟨["xrsa", "xrsb"], [(5, 2, 7)]⟩ (by decide)).1⟩

/-- C6: the two scripts agree on their shared steps: the old script's URL
and local filename equal the new script's at its default type "xrs", and
the two `make_goes_timeseries` functions are extensionally equal. -/
theorem old_matches_new (sat : Nat) (d : PDate) (path : Option String) (ds : Dataset) :
    get_goes_url_old sat d = get_goes_url sat "xrs" d ∧
    get_goes_filename (get_goes_url_old sat d) path =
      get_goes_filename (get_goes_url sat "xrs" d) path ∧
    make_goes_timeseries_old ds = make_goes_timeseries ds := by
  have hurl : get_goes_url_old sat d = get_goes_url sat "xrs" d := by
    rw [get_goes_url_old, get_goes_url]
    simp only [String.append_assoc]
    rw [pathJoin_goes _ _ (by rfl), pathJoin_goes _ _ (by rfl)]
    apply String.ext
    simp only [String.data_append]
    rfl
  exact ⟨hurl, by rw [hurl], rfl⟩

theorem runCombos_fst (body : Combo → Bool) (l : List Combo) :
    (runCombos body l).1 = l := by
  induction l with
  | nil => rfl
  | cons c rest ih =>
    simp only [runCombos]
    cases body c <;> simp [ih]

theorem runCombos_snd (body : Combo → Bool) (l : List Combo) :
    (runCombos body l).2 =
      (l.filter body).map (fun c => output_file c.2.1 c.1 c.2.2) := by
  induction l with
  | nil => rfl
  | cons c rest ih =>
    simp only [runCombos, List.filter_cons]
    cases body c <;> simp [ih]

/-- C7: the bare try/except of `get_goes_by_date` swallows failures and
continues: whatever subset of combinations fails, every (type, sat, date)
combination is still processed in order, and the files written are exactly
the output files of the succeeding combinations — an early failure never
prevents later output files. -/
theorem get_goes_by_date_catch_continue (body : Combo → Bool) :
    (get_goes_by_date body).1 = allCombos ∧
    (get_goes_by_date body).2 =
      (allCombos.filter body).map (fun c => output_file c.2.1 c.1 c.2.2) :=
  ⟨runCombos_fst body allCombos, runCombos_snd body allCombos⟩

/-- C10: for any interval outside the four dictionary keys,
`read_recent_noaa` prints the warning but still indexes the dictionary with
the invalid key, so it raises a lookup error instead of returning a frame. -/
theorem read_recent_noaa_invalid (interval : String) (records : List NoaaRecord)
    (h : interval ∉ ["7-day", "3-day", "1-day", "6-hour"]) :
    (read_recent_noaa interval records).1 = true ∧
    (read_recent_noaa interval records).2 = none := by
  simp only [List.mem_cons, List.not_mem_nil, or_false, not_or] at h
  obtain ⟨h1, h2, h3, h4⟩ := h
  have e1 : (interval == "7-day") = false := beq_eq_false_iff_ne.mpr h1
  have e2 : (interval == "3-day") = false := beq_eq_false_iff_ne.mpr h2
  have e3 : (interval == "1-day") = false := beq_eq_false_iff_ne.mpr h3
  have e4 : (interval == "6-hour") = false := beq_eq_false_iff_ne.mpr h4
  have f1 : ("7-day" == interval) = false := beq_eq_false_iff_ne.mpr (Ne.symm h1)
  have f2 : ("3-day" == interval) = false := beq_eq_false_iff_ne.mpr (Ne.symm h2)
  have f3 : ("1-day" == interval) = false := beq_eq_false_iff_ne.mpr (Ne.symm h3)
  have f4 : ("6-hour" == interval) = false := beq_eq_false_iff_ne.mpr (Ne.symm h4)
  simp [read_recent_noaa, dict_interval, List.lookup, e1, e2, e3, e4, f1, f2, f3, f4]

theorem read_recent_noaa_invalid_witness :
    ("2-day" ∉ ["7-day", "3-day", "1-day", "6-hour"]) ∧
    ((read_recent_noaa "2-day" []).1 = true ∧ (read_recent_noaa "2-day" []).2 = none) :=
  ⟨by decide, read_recent_noaa_invalid "2-day" [] (by decide)⟩

end Geos
